import Mathlib

/-!
Verification of the credibil/vc issuance-and-presentation core against its
specification.  The Rust source is shallowly embedded: pure functions become
Lean functions, stateful handlers become explicit state passing over a list
model of the `StateStore`, fallible code returns `Except`, and machine
integers become `Nat`/`Int`.  External crates (serde, serde-json-path,
regex, chrono parsing, flate2 GZIP, SHA-256, JWS signing) are passed in as
function parameters; everything belonging to the repository itself is
translated from the source.
-/

/- ===================== JSON values (serde_json::Value) ===================== -/

mutual
/-- Model of `serde_json::Value`.  Numbers are modelled as integers (the
claims under verification never exercise floating point). -/
inductive Json where
  | null : Json
  | bool (b : Bool) : Json
  | num (n : Int) : Json
  | str (s : String) : Json
  | arr (xs : JsonArr) : Json
  | obj (kvs : JsonObj) : Json
  deriving DecidableEq
/-- A JSON array, as a specialised list so that mutual structural recursion
over `Json` stays definitional. -/
inductive JsonArr where
  | nil : JsonArr
  | cons (hd : Json) (tl : JsonArr) : JsonArr
  deriving DecidableEq
/-- A JSON object: an ordered association list of string keys and values. -/
inductive JsonObj where
  | nil : JsonObj
  | cons (key : String) (val : Json) (tl : JsonObj) : JsonObj
  deriving DecidableEq
end

/-- Escape a character for a JSON string literal, as `serde_json` does:
quote, backslash and ASCII control characters are escaped; everything else
is emitted verbatim. -/
def jsonEscapeChar (c : Char) : String :=
  if c = '"' then "\\\""
  else if c = '\\' then "\\\\"
  else if c = '\n' then "\\n"
  else if c = '\r' then "\\r"
  else if c = '\t' then "\\t"
  else if c.toNat < 32 then
    let hex := Nat.toDigits 16 c.toNat
    "\\u" ++ String.mk (List.replicate (4 - hex.length) '0') ++ String.mk hex
  else String.singleton c

/-- Render a Lean string as a JSON string literal (compact form). -/
def jsonEscape (s : String) : String :=
  "\"" ++ String.join (s.data.map jsonEscapeChar) ++ "\""

mutual
/-- Compact JSON rendering, the model of `serde_json::Value::to_string`
(also `serde_json::to_vec` up to UTF-8 encoding). -/
def Json.render : Json → String
  | .null => "null"
  | .bool true => "true"
  | .bool false => "false"
  | .num n => toString n
  | .str s => jsonEscape s
  | .arr xs => "[" ++ JsonArr.renderItems xs ++ "]"
  | .obj kvs => "\x7b" ++ JsonObj.renderItems kvs ++ "\x7d"
/-- Render the comma-separated items of a JSON array. -/
def JsonArr.renderItems : JsonArr → String
  | .nil => ""
  | .cons hd .nil => hd.render
  | .cons hd tl => hd.render ++ "," ++ JsonArr.renderItems tl
/-- Render the comma-separated members of a JSON object. -/
def JsonObj.renderItems : JsonObj → String
  | .nil => ""
  | .cons k v .nil => jsonEscape k ++ ":" ++ v.render
  | .cons k v tl => jsonEscape k ++ ":" ++ v.render ++ "," ++ JsonObj.renderItems tl
end

/-- Membership test on a JSON array, the model of `Vec::contains` under
serde's `PartialEq` for `Value`. -/
def JsonArr.containsVal : JsonArr → Json → Bool
  | .nil, _ => false
  | .cons hd tl, v => hd = v || tl.containsVal v

/-- Key lookup in a JSON object (first occurrence). -/
def JsonObj.lookupKey : JsonObj → String → Option Json
  | .nil, _ => none
  | .cons k v tl, key => if k = key then some v else tl.lookupKey key

/- ===================== Bytes and base64url ===================== -/

/-- The bytes of an ASCII string.  The embedding uses it only on ASCII
data, where it agrees with UTF-8 encoding (`String::as_bytes`). -/
def strBytes (s : String) : List Nat :=
  s.data.map Char.toNat

/-- The base64url alphabet (RFC 4648 §5), position `i` to character. -/
def b64Char (i : Nat) : Char :=
  let table := "ABCDEFGHIJKLMNOPQRSTUVWXYZabcdefghijklmnopqrstuvwxyz0123456789-_"
  table.data.getD i 'A'

/-- base64url encoding without padding over a byte list, the model of
`Base64UrlUnpadded::encode_string`.  Returned as a character list so that
length reasoning is by list induction. -/
def b64urlChars : List Nat → List Char
  | [] => []
  | [a] =>
      [b64Char (a / 4 % 64), b64Char (a % 4 * 16)]
  | [a, b] =>
      [b64Char (a / 4 % 64), b64Char (a % 4 * 16 + b / 16 % 16), b64Char (b % 16 * 4)]
  | a :: b :: c :: rest =>
      b64Char (a / 4 % 64) :: b64Char (a % 4 * 16 + b / 16 % 16) ::
      b64Char (b % 16 * 4 + c / 64 % 4) :: b64Char (c % 64) :: b64urlChars rest

/-- base64url encoding without padding, as a string. -/
def b64url (bytes : List Nat) : String :=
  String.mk (b64urlChars bytes)

/- ===================== core::Kind ===================== -/

/-- Model of `core::Kind`: a value serialised either as a plain string or as an
object (src/src/core.rs). -/
inductive Kind (α : Type) where
  | str (s : String) : Kind α
  | object (o : α) : Kind α
  deriving DecidableEq

/-- Model of `Kind::as_str` / `as_string`: the string variant, if any. -/
def Kind.asStr {α : Type} : Kind α → Option String
  | .str s => some s
  | .object _ => none

/- ===================== SD-JWT format layer ===================== -/

/-- Model of `sd_jwt::JwtType` (src/src/format/sd_jwt.rs): JWT `typ` header options. -/
inductive JwtType where
  | sdJwt : JwtType
  | kbJwt : JwtType
  deriving DecidableEq

/-- Model of `From<JwtType> for String` (src/src/format/sd_jwt.rs). -/
def JwtType.toStr : JwtType → String
  | .sdJwt => "dc+sd-jwt"
  | .kbJwt => "kb+jwt"

/-- Model of `sd_jwt::Disclosure` (src/src/format/sd_jwt.rs): a claim disclosure.
The `salt` field holds the base64url string that `Disclosure::new` derives
from 16 random bytes; randomness is passed in explicitly. -/
structure Disclosure where
  name : String
  value : Json
  salt : String
  deriving DecidableEq

/-- Model of `Disclosure::new` with the freshly generated salt made explicit. -/
def Disclosure.new (name : String) (value : Json) (salt : String) : Disclosure :=
  { name := name, value := value, salt := salt }

/-- Model of `Disclosure::encoded`: base64url of the JSON array
`[salt, name, value]` (src/src/format/sd_jwt.rs lines 155-158). -/
def Disclosure.encoded (d : Disclosure) : String :=
  b64url (strBytes (Json.arr (.cons (.str d.salt) (.cons (.str d.name)
    (.cons d.value .nil)))).render)

/-- Model of `Disclosure::hashed`: base64url of the SHA-256 digest of the encoded
disclosure.  SHA-256 (the `sha2` crate) is external and passed in. -/
def Disclosure.hashed (sha : List Nat → List Nat) (d : Disclosure) : String :=
  b64url (sha (strBytes d.encoded))

/-- Model of `sd_jwt::KbJwtClaims` (src/src/format/sd_jwt.rs): payload of a
Key Binding JWT.  `iat` is a unix timestamp. -/
structure KbJwtClaims where
  nonce : String
  aud : String
  iat : Int
  sd_hash : String
  deriving DecidableEq

/-- Modelled from the spec: `oid4vp::types::Claim` — a normalised claim of
a stored credential, `(path, value)` with `path` the JSON keys from the
root (spec §4.6); the struct definition is not under src/, its shape is
fixed by src/src/format/w3c/store.rs and the test in
src/src/oid4vp/query/dif_exch.rs. -/
structure QClaim where
  path : List String
  value : Json
  deriving DecidableEq

/-- Modelled from the spec: `oid4vp::types::Queryable` — the normalised
form `(claims, credential)` of an issued credential (spec §4.6); the
struct definition is not under src/, its shape is fixed by
src/src/format/w3c/store.rs and src/src/sd_jwt/present.rs. -/
structure Queryable where
  claims : List QClaim
  credential : Kind Json
  deriving DecidableEq

/-- The disclosures built by `SdJwtVpBuilder::build` step 2
(src/src/sd_jwt/present.rs lines 127-133): one fresh `Disclosure` per
queryable claim, named by the last path element, salted with the fresh
random salt `salts i`.  An empty claim path makes the source panic
(`claim.path[claim.path.len() - 1]`), modelled as an error. -/
def buildDisclosures (salts : Nat → String) : Nat → List QClaim → Except String (List String)
  | _, [] => .ok []
  | i, c :: rest => do
      let some name := c.path.getLast? | .error "panic: index out of range"
      let d := Disclosure.new name c.value (salts i)
      let tl ← buildDisclosures salts (i + 1) rest
      .ok (d.encoded :: tl)

/-- Model of `SdJwtVpBuilder::build` (src/src/sd_jwt/present.rs lines 119-158).
External collaborators are parameters: `sha` is SHA-256, `mkJws s typ c`
models `Jws::builder().typ(typ).payload(c).add_signer(signer).build()`
for signer `s`, `salts` is the stream of fresh salts consumed by
`Disclosure::new`, and `now` is `Utc::now()`. -/
def sdJwtVpBuild {σ : Type} (sha : List Nat → List Nat)
    (mkJws : σ → String → KbJwtClaims → String) (signer : σ) (salts : Nat → String)
    (queryable : Queryable) (verifier : String) (nonce : Option String) (now : Int) :
    Except String String := do
  -- 1. issued SD-JWT
  let some credential := queryable.credential.asStr | .error "Invalid issued claim type"
  -- 2. disclosures
  let disclosures ← buildDisclosures salts 0 queryable.claims
  -- 3. key binding JWT
  let sd := credential ++ "~" ++ String.intercalate "~" disclosures
  let sdHash := sha (strBytes sd)
  let claims : KbJwtClaims :=
    { nonce := nonce.getD "", aud := verifier, iat := now,
      sd_hash := b64url sdHash }
  let kbJwt := mkJws signer (JwtType.toStr .kbJwt) claims
  -- assemble
  .ok (sd ++ "~" ++ kbJwt)

/- ===================== Bitstring status lists ===================== -/

/-- Model of `w3c::StatusPurpose` (src/src/w3c.rs lines 252-264). -/
inductive StatusPurpose where
  | revocation : StatusPurpose
  | suspension : StatusPurpose
  | message : StatusPurpose
  deriving DecidableEq

/-- Modelled from the spec: `status::config::ListConfig` — the list
configuration `(purpose, size)` used by `bitstring`
(src/src/status/bitstring.rs reads `config.purpose` and `config.size`);
config.rs itself is not under src/.  `size` is the per-entry
`status_size` in bits (spec §4.5, default 1). -/
structure ListConfig where
  purpose : StatusPurpose
  size : Nat
  deriving DecidableEq

/-- Modelled from the spec: one status assertion of a
`status::log::StatusLogEntry` — `(purpose, list_index, value)` (spec §3,
Status List Entry); log.rs is not under src/.  `value` is carried as its
Lsb0 bit view, matching `status.value.view_bits::<Lsb0>()` in
src/src/status/bitstring.rs. -/
structure StatusItem where
  purpose : StatusPurpose
  list_index : Nat
  value : List Bool
  deriving DecidableEq

/-- Modelled from the spec: `status::log::StatusLogEntry` — the issued-
credential log entry carrying its status assertions; log.rs is not under
src/, the `entry.status` iteration is fixed by src/src/status/bitstring.rs. -/
structure StatusLogEntry where
  status : List StatusItem
  deriving DecidableEq

/-- Model of `MAX_ENTRIES` (src/src/status/bitstring.rs line 32). -/
def MAX_ENTRIES : Nat := 131072

/-- Write the bits of `value` LSB-first starting at `position`, the model
of the `StatusPurpose::Message` arm of `bitstring`.  `bitvec`'s `set`
panics past the end of the buffer; the panic is modelled as an error. -/
def writeBits (bits : List Bool) (position : Nat) : List Bool → Except String (List Bool)
  | [] => .ok bits
  | b :: rest =>
      if position < bits.length then
        writeBits (bits.set position b) (position + 1) rest
      else .error "panic: index out of bounds"

/-- Apply one `StatusItem` to the bit buffer: the body of the inner loop
of `bitstring` (src/src/status/bitstring.rs lines 65-85). -/
def applyStatus (config : ListConfig) (bits : List Bool) (status : StatusItem) :
    Except String (List Bool) :=
  if status.purpose ≠ config.purpose then .ok bits
  else
    let position := status.list_index * config.size
    if position ≥ bits.length then .error "status index out of range"
    else
      match config.purpose with
      | .revocation | .suspension => .ok (bits.set position (status.value.any id))
      | .message => writeBits bits position status.value

/-- The inner loop of `bitstring` over one entry's status list. -/
def applyEntry (config : ListConfig) (bits : List Bool) : List StatusItem →
    Except String (List Bool)
  | [] => .ok bits
  | s :: rest => do
      let bits ← applyStatus config bits s
      applyEntry config bits rest

/-- The outer loop of `bitstring` over the status log. -/
def applyLog (config : ListConfig) (bits : List Bool) : List StatusLogEntry →
    Except String (List Bool)
  | [] => .ok bits
  | e :: rest => do
      let bits ← applyEntry config bits e.status
      applyLog config bits rest

/-- The bit buffer `bitstring` constructs before compression:
`bits![mut 0; MAX_ENTRIES]` updated by the two nested loops. -/
def bitstringBits (config : ListConfig) (issued : List StatusLogEntry) :
    Except String (List Bool) :=
  applyLog config (List.replicate MAX_ENTRIES false) issued

/-- The `uncompressed` ASCII expansion (src/src/status/bitstring.rs line
88): one `'1'`/`'0'` character per bit, index 0 first. -/
def uncompressedChars (bits : List Bool) : List Char :=
  bits.map (fun b => if b then '1' else '0')

/-- Model of `status::bitstring::bitstring` (src/src/status/bitstring.rs lines
62-97).  `gzip` models the external flate2 `GzEncoder` at default
compression; the encoder input is `uncompressed.as_bytes()`. -/
def bitstring (gzip : List Nat → List Nat) (config : ListConfig)
    (issued : List StatusLogEntry) : Except String String := do
  let bits ← bitstringBits config issued
  let uncompressed := uncompressedChars bits
  let compressed := gzip (uncompressed.map Char.toNat)
  .ok (b64url compressed)

/-- Pack a bit list into bytes, 8 bits per byte, index 0 at the most
significant bit of the first byte — the "raw 131,072-bit buffer with
index 0 at the left-most bit" that claim C4 (and spec §4.5) says is what
gets GZIP-compressed. -/
def packBits : List Bool → List Nat
  | b0 :: b1 :: b2 :: b3 :: b4 :: b5 :: b6 :: b7 :: rest =>
      ((if b0 then 128 else 0) + (if b1 then 64 else 0) + (if b2 then 32 else 0) +
       (if b3 then 16 else 0) + (if b4 then 8 else 0) + (if b5 then 4 else 0) +
       (if b6 then 2 else 0) + (if b7 then 1 else 0)) :: packBits rest
  | [] => []
  | leftover =>
      [leftover.foldl (fun acc b => acc * 2 + (if b then 1 else 0)) 0]

/-- Claim C4's reading of `bitstring`: base64url-without-padding of the
GZIP compression of the raw (packed) bit buffer. -/
def bitstringClaimed (gzip : List Nat → List Nat) (config : ListConfig)
    (issued : List StatusLogEntry) : Except String String := do
  let bits ← bitstringBits config issued
  .ok (b64url (gzip (packBits bits)))

/-- Claim C4 as a proposition over the unknown compressor: flate2's GZIP
is lossless, hence injective, so the claim is formalised for every
injective compressor. -/
def C4Statement : Prop :=
  ∀ gzip : List Nat → List Nat, Function.Injective gzip →
    ∀ config issued, bitstring gzip config issued = bitstringClaimed gzip config issued

/- ===================== OID4VCI error model ===================== -/

/-- Model of `oid4vci::Error` (src/src/oid4vci/error.rs lines 18-147). -/
inductive Oid4vci.Error where
  | invalidRequest (d : String)
  | invalidClient (d : String)
  | invalidGrant (d : String)
  | unauthorizedClient (d : String)
  | unsupportedGrantType (d : String)
  | invalidScope (d : String)
  | invalidAuthorizationDetails (d : String)
  | accessDenied (d : String)
  | unsupportedResponseType (d : String)
  | serverError (d : String)
  | temporarilyUnavailable (d : String)
  | invalidCredentialRequest (d : String)
  | unsupportedCredentialType (d : String)
  | unsupportedCredentialFormat (d : String)
  | invalidProof (d : String)
  | invalidNonce (d : String)
  | invalidEncryptionParameters (d : String)
  | credentialRequestDenied (d : String)
  | issuancePending (interval : Int)
  | invalidTransactionId (d : String)
  deriving DecidableEq

/-- The OAuth wire code of each error variant, as fixed by the
`#[error(...)]` display templates of src/src/oid4vci/error.rs. -/
def Oid4vci.Error.code : Oid4vci.Error → String
  | .invalidRequest _ => "invalid_request"
  | .invalidClient _ => "invalid_client"
  | .invalidGrant _ => "invalid_grant"
  | .unauthorizedClient _ => "unauthorized_client"
  | .unsupportedGrantType _ => "unsupported_grant_type"
  | .invalidScope _ => "invalid_scope"
  | .invalidAuthorizationDetails _ => "invalid_authorization_details"
  | .accessDenied _ => "access_denied"
  | .unsupportedResponseType _ => "unsupported_response_type"
  | .serverError _ => "server_error"
  | .temporarilyUnavailable _ => "temporarily_unavailable"
  | .invalidCredentialRequest _ => "invalid_credential_request"
  | .unsupportedCredentialType _ => "unsupported_credential_type"
  | .unsupportedCredentialFormat _ => "unsupported_credential_format"
  | .invalidProof _ => "invalid_proof"
  | .invalidNonce _ => "invalid_nonce"
  | .invalidEncryptionParameters _ => "invalid_encryption_parameters"
  | .credentialRequestDenied _ => "credential_request_denied"
  | .issuancePending _ => "issuance_pending"
  | .invalidTransactionId _ => "invalid_transaction_id"

/-- The `error_description` text interpolated into the display template;
`IssuancePending` is the one variant whose template carries an
`interval` member instead of a description. -/
def Oid4vci.Error.description : Oid4vci.Error → Option String
  | .invalidRequest d | .invalidClient d | .invalidGrant d | .unauthorizedClient d
  | .unsupportedGrantType d | .invalidScope d | .invalidAuthorizationDetails d
  | .accessDenied d | .unsupportedResponseType d | .serverError d
  | .temporarilyUnavailable d | .invalidCredentialRequest d
  | .unsupportedCredentialType d | .unsupportedCredentialFormat d
  | .invalidProof d | .invalidNonce d | .invalidEncryptionParameters d
  | .credentialRequestDenied d | .invalidTransactionId d => some d
  | .issuancePending _ => none

/-- Model of `Display` for `oid4vci::Error`: the raw template output
`{"error": "<code>", "error_description": "<description>"}` with the
description interpolated verbatim (src/src/oid4vci/error.rs). -/
def Oid4vci.Error.displayStr (e : Oid4vci.Error) : String :=
  match e with
  | .issuancePending i =>
      "\x7b\"error\": \"issuance_pending\", \"interval\": " ++ toString i ++ "\x7d"
  | _ =>
      "\x7b\"error\": \"" ++ e.code ++ "\", \"error_description\": \"" ++
        (e.description.getD "") ++ "\"\x7d"

/-- Model of `oid4vci::error::OidError` (src/src/oid4vci/error.rs lines 152-157):
the intermediate struct the serialiser round-trips through. -/
structure OidError where
  error : String
  error_description : String
  state : Option String
  deriving DecidableEq

/-- A description interpolates into the display template as valid JSON iff
it contains no character that JSON string syntax escapes. -/
def jsonSafe (s : String) : Bool :=
  s.data.all (fun c => c ≠ '"' && c ≠ '\\' && c.toNat ≥ 32)

/-- The `serde_json::from_str::<OidError>(&self.to_string())` step of
`Serialize for Error` (src/src/oid4vci/error.rs lines 159-168): parsing
the display template back into `OidError`.  It fails when the
interpolated description breaks the template's JSON, and for
`IssuancePending`, whose template has no `error_description` member. -/
def Oid4vci.Error.toOid (e : Oid4vci.Error) : Except String OidError :=
  match e.description with
  | none => .error "issue deserializing Err"
  | some d =>
      if jsonSafe d then .ok { error := e.code, error_description := d, state := none }
      else .error "issue deserializing Err"

/-- Serialising `OidError`: the members emitted, in declaration order;
`state` is skipped when `None` (`skip_serializing_if`). -/
def OidError.members (o : OidError) : List (String × String) :=
  [("error", o.error), ("error_description", o.error_description)] ++
    (match o.state with | none => [] | some s => [("state", s)])

/-- Model of `Serialize for Error`: the member list of the serialised error
response (src/src/oid4vci/error.rs lines 159-168). -/
def Oid4vci.Error.serialized (e : Oid4vci.Error) : Except String (List (String × String)) :=
  (e.toOid).map OidError.members

/- ===================== OID4VCI issuer types and state ===================== -/

/-- Model of `oauth::GrantType`: the grant types exercised by the offer endpoints.
The oauth module is not under src/; the two variants used by
src/src/oid4vci/issuer/create_offer.rs are modelled (spec §4.1). -/
inductive GrantType where
  | authorizationCode : GrantType
  | preAuthorizedCode : GrantType
  deriving DecidableEq

/-- Model of `SendType` (src/src/oid4vci/issuer/offer.rs lines 42-54):
whether the Credential Offer is sent to the wallet by value or by
reference. -/
inductive SendType where
  | byVal : SendType
  | byRef : SendType
  deriving DecidableEq

/-- Modelled from the spec: `oid4vci::types::TxCode` — the transaction code
descriptor of a pre-authorized grant (spec §3, Credential Offer); the
struct is not under src/, its construction is fixed by
src/src/oid4vci/issuer/create_offer.rs lines 184-192. -/
structure TxCode where
  input_mode : Option String
  length : Option Int
  description : Option String
  deriving DecidableEq

/-- Modelled from the spec: `oid4vci::types::PreAuthorizedCodeGrant`
(spec §3); construction fixed by create_offer.rs lines 194-198. -/
structure PreAuthorizedCodeGrant where
  pre_authorized_code : String
  tx_code : Option TxCode
  authorization_server : Option String
  deriving DecidableEq

/-- Modelled from the spec: `oid4vci::types::AuthorizationCodeGrant`
(spec §3); construction fixed by create_offer.rs lines 201-206. -/
structure AuthorizationCodeGrant where
  issuer_state : Option String
  authorization_server : Option String
  deriving DecidableEq

/-- Modelled from the spec: `oid4vci::types::Grants` (spec §3,
Credential Offer). -/
structure Grants where
  authorization_code : Option AuthorizationCodeGrant
  pre_authorized_code : Option PreAuthorizedCodeGrant
  deriving DecidableEq

/-- Model of `CredentialOffer` (src/src/oid4vci/issuer/offer.rs lines
126-155): `{credential_configuration_ids, grants?}`. -/
structure CredentialOffer where
  credential_configuration_ids : List String
  grants : Option Grants
  deriving DecidableEq

/-- Modelled from the spec: `oid4vci::types::AuthorizationCredential`
(claim by configuration id); construction fixed by create_offer.rs
lines 240-242. -/
inductive AuthorizationCredential where
  | configurationId (credential_configuration_id : String)
  deriving DecidableEq

/-- Modelled from the spec: `oid4vci::types::AuthorizationDetail`;
construction fixed by create_offer.rs lines 238-245 (`claims` and
`locations` are always `None` there and are omitted). -/
structure AuthorizationDetail where
  type_ : String
  credential : AuthorizationCredential
  deriving DecidableEq

/-- Modelled from the spec: `oid4vci::types::AuthorizedDetail` (spec §3,
Authorized Detail). -/
structure AuthorizedDetail where
  authorization_detail : AuthorizationDetail
  credential_identifiers : List String
  deriving DecidableEq

/-- Modelled from the spec: `oid4vci::state::Offer` — the payload of the
`Offered` stage (spec §3 Flow State); construction fixed by
create_offer.rs lines 72-75. -/
structure OfferedState where
  details : Option (List AuthorizedDetail)
  tx_code : Option String
  deriving DecidableEq

/-- Modelled from the spec: `oid4vci::state::Stage` — the discriminated
flow stage `{Pending, Offered, Authorized, Deferred}` (spec §3 Flow
State); state.rs is not under src/.  The `Authorized`/`Deferred`
payloads are not exercised by the claims and are left abstract. -/
inductive Stage where
  | pending (offer : CredentialOffer)
  | offered (offer : OfferedState)
  | authorized
  | deferred
  deriving DecidableEq

/-- Modelled from the spec: `oid4vci::state::State` (spec §3 Flow State:
`{expires_at, subject_id?, stage}`); field use fixed by create_offer.rs
lines 69-76.  `expires_at` is a unix timestamp. -/
structure VciState where
  expires_at : Int
  subject_id : Option String
  stage : Stage
  deriving DecidableEq

/-- Modelled from the spec: `State::is_expired` — expiry by comparison
with the current time (spec §5: expired entries are treated as absent;
the vercre-era sources compute `expires_at < now`). -/
def VciState.isExpired (now : Int) (st : VciState) : Bool :=
  st.expires_at < now

/-- Modelled from the spec: `Expire::Authorized.duration()` — the
authorization lifetime, default 10 minutes (spec §5 Timeouts). -/
def authorizedLifetime : Int := 600

/-- The slice of issuer metadata read by `create_offer`
(src/src/oid4vci/issuer/create_offer.rs): the supported configuration
ids (map keys) and the trusted authorization servers. -/
structure IssuerMeta where
  credential_configurations_supported : List String
  authorization_servers : Option (List String)
  deriving DecidableEq

/-- The slice of authorization-server metadata read by `create_offer`:
`grant_types_supported`. -/
structure ServerMeta where
  grant_types_supported : Option (List GrantType)
  deriving DecidableEq

/-- A list model of the `StateStore` keyed by strings (spec §4.3). -/
def VciStore := List (String × VciState)

/-- Model of `StateStore::get`: the first entry for the key, if any. -/
def VciStore.get (store : VciStore) (key : String) : Option VciState :=
  (List.find? (fun p => p.1 = key) store).map Prod.snd

/-- Model of `StateStore::purge`: remove the entry for the key. -/
def VciStore.purge (store : VciStore) (key : String) : VciStore :=
  List.filter (fun p => ¬ p.1 = key) store

/- ===================== create_offer handler ===================== -/

/-- Model of `CreateOfferRequest` (src/src/oid4vci/issuer/offer.rs lines
13-40). -/
structure CreateOfferRequest where
  subject_id : Option String
  credential_configuration_ids : List String
  grant_types : Option (List GrantType)
  tx_code_required : Bool
  send_type : SendType
  deriving DecidableEq

/-- Model of `CreateOfferRequest::verify` (src/src/oid4vci/issuer/create_offer.rs
lines 129-166). -/
def createOfferVerify (issuer : IssuerMeta) (server : ServerMeta)
    (req : CreateOfferRequest) : Except Oid4vci.Error Unit := do
  -- credentials required
  if req.credential_configuration_ids.isEmpty then
    throw (.invalidRequest "no credentials requested")
  -- are requested credential(s) supported
  for credId in req.credential_configuration_ids do
    if ¬ issuer.credential_configurations_supported.contains credId then
      throw (.unsupportedCredentialType "requested credential is unsupported")
  if let some grantTypes := req.grant_types then
    -- check requested grant_types are supported by OAuth Server
    if let some supported := server.grant_types_supported then
      for gt in grantTypes do
        if ¬ supported.contains gt then
          throw (.unsupportedGrantType "unsupported grant type")
    -- subject_id is required for pre-authorized offers
    if grantTypes.contains .preAuthorizedCode && req.subject_id.isNone then
      throw (.invalidRequest "subject_id is required for pre-authorization")
  .ok ()

/-- Model of `CreateOfferRequest::create_offer` (src/src/oid4vci/issuer/
create_offer.rs lines 169-220).  `authCode` is the single
`generate::auth_code()` value; indexing `servers[0]` on an empty vector
panics in the source and is modelled as an error. -/
def createOfferObj (issuer : IssuerMeta) (authCode : String)
    (req : CreateOfferRequest) : Except String CredentialOffer := do
  let grantTypes := req.grant_types.getD []
  let authorizationServer ←
    match issuer.authorization_servers with
    | none => pure none
    | some [] => .error "panic: index out of range"
    | some (s :: _) => pure (some s)
  let preAuth : Option PreAuthorizedCodeGrant :=
    if grantTypes.contains .preAuthorizedCode then
      let txCodeDef : Option TxCode :=
        if req.tx_code_required then
          some { input_mode := some "numeric", length := some 6,
                 description := some "Please provide the one-time code received" }
        else none
      some { pre_authorized_code := authCode, tx_code := txCodeDef,
             authorization_server := authorizationServer }
    else none
  let authCodeGrant : Option AuthorizationCodeGrant :=
    if grantTypes.contains .authorizationCode then
      some { issuer_state := some authCode, authorization_server := authorizationServer }
    else none
  let grants : Option Grants :=
    if authCodeGrant.isSome || preAuth.isSome then
      some { authorization_code := authCodeGrant, pre_authorized_code := preAuth }
    else none
  .ok { credential_configuration_ids := req.credential_configuration_ids, grants := grants }

/-- Model of `create_offer::authorize` (src/src/oid4vci/issuer/create_offer.rs
lines 224-251): expand each requested configuration id through
`Subject::authorize`.  The subject provider is the external parameter
`authorizeFn`. -/
def authorizeAll (authorizeFn : String → String → Except String (List String))
    (subjectId : String) : List String → Except Oid4vci.Error (List AuthorizedDetail)
  | [] => .ok []
  | configId :: rest => do
      let identifiers ←
        match authorizeFn subjectId configId with
        | .error e => throw (.serverError ("issue authorizing holder: " ++ e))
        | .ok ids => pure ids
      let tl ← authorizeAll authorizeFn subjectId rest
      .ok ({ authorization_detail :=
               { type_ := "openid_credential",
                 credential := .configurationId configId },
             credential_identifiers := identifiers } :: tl)

/-- Model of `create_offer::state_key` (src/src/oid4vci/issuer/create_offer.rs
lines 255-273). -/
def stateKeyOf (grants : Option Grants) : Except Oid4vci.Error String := do
  let some gs := grants | throw (.serverError "no grants")
  if let some preAuth := gs.pre_authorized_code then
    return preAuth.pre_authorized_code
  if let some authorizationCode := gs.authorization_code then
    let some issuerState := authorizationCode.issuer_state
      | throw (.serverError "no issuer_state")
    return issuerState
  throw (.serverError "no state key")

/-- Model of `OfferType` (src/src/oid4vci/issuer/offer.rs lines 89-102):
a Credential Offer sent as an object or as a URI, serde-tagged by key
(`credential_offer` vs `credential_offer_uri`). -/
inductive OfferType where
  | object (offer : CredentialOffer)
  | uri (u : String)
  deriving DecidableEq

/-- Model of `CreateOfferResponse` (src/src/oid4vci/issuer/offer.rs
lines 74-87). -/
structure CreateOfferResponse where
  offer_type : OfferType
  tx_code : Option String
  deriving DecidableEq

/-- Model of `create_offer` handler (src/src/oid4vci/issuer/create_offer.rs lines
32-114).  External collaborators are explicit: the metadata records, the
subject's `authorizeFn`, the generated randoms (`authCode` from
`generate::auth_code()`, `txCode` from `generate::tx_code()`, `uriToken`
from `generate::uri_token()`) and the clock `now`.  The result pairs the
response with the ordered list of `StateStore::put` calls. -/
def create_offer (issuer : IssuerMeta) (server : ServerMeta)
    (authorizeFn : String → String → Except String (List String))
    (authCode txCode uriToken : String) (now : Int) (issuerId : String)
    (req : CreateOfferRequest) :
    Except Oid4vci.Error (CreateOfferResponse × List (String × VciState)) := do
  createOfferVerify issuer server req
  let grantTypes := req.grant_types.getD []
  let offer ←
    match createOfferObj issuer authCode req with
    | .error e => throw (.serverError e)
    | .ok o => pure o
  let txCodeOut : Option String :=
    if req.tx_code_required && grantTypes.contains .preAuthorizedCode then some txCode
    else none
  -- save offer details to state
  let offeredPuts : List (String × VciState) ←
    if grantTypes.contains .preAuthorizedCode || grantTypes.contains .authorizationCode then do
      let authItems : Option (List AuthorizedDetail) ←
        if grantTypes.contains .preAuthorizedCode then do
          let items ← authorizeAll authorizeFn (req.subject_id.getD "")
            req.credential_configuration_ids
          pure (some items)
        else pure none
      let stateKey ← stateKeyOf offer.grants
      let state : VciState :=
        { expires_at := now + authorizedLifetime, subject_id := req.subject_id,
          stage := .offered { details := authItems, tx_code := txCodeOut } }
      pure [(stateKey, state)]
    else pure []
  -- respond with Offer object or uri?
  if req.send_type = .byVal then
    return ({ offer_type := .object offer, tx_code := txCodeOut }, offeredPuts)
  -- save offer to state
  let state : VciState :=
    { expires_at := now + authorizedLifetime, subject_id := req.subject_id,
      stage := .pending offer }
  return ({ offer_type := .uri (issuerId ++ "/credential_offer/" ++ uriToken),
            tx_code := txCodeOut }, offeredPuts ++ [(uriToken, state)])

/- ===================== credential_offer (fetch) handler ===================== -/

/-- Model of `CredentialOfferRequest` (src/src/oid4vci/issuer/offer.rs
lines 217-226): the wallet's fetch of a previously generated offer by its
unique `id`. -/
structure CredentialOfferRequest where
  id : String
  deriving DecidableEq

/-- Model of `CredentialOfferResponse` (src/src/oid4vci/issuer/offer.rs
lines 228-234). -/
structure CredentialOfferResponse where
  credential_offer : CredentialOffer
  deriving DecidableEq

/-- Model of `credential_offer` handler (src/src/oid4vci/issuer/
credential_offer.rs lines 31-51): fetch then purge the keyed state,
reject expired entries and entries that are not `Pending`.  A failed
`StateStore::get` (no entry for the key) is mapped by the `server!`
macro to `ServerError`. -/
def credential_offer (now : Int) (store : VciStore) (req : CredentialOfferRequest) :
    Except Oid4vci.Error CredentialOfferResponse × VciStore :=
  match store.get req.id with
  | none => (.error (.serverError "issue fetching state: not found"), store)
  | some state =>
      let store := store.purge req.id
      if state.isExpired now then
        (.error (.invalidRequest "state expired"), store)
      else
        match state.stage with
        | .pending offer => (.ok { credential_offer := offer }, store)
        | _ => (.error (.invalidRequest "no credential offer found"), store)

/- ===================== Presentation Exchange constraints ===================== -/

/-- Model of `Json::as_bool` (serde's `Value::as_bool`). -/
def Json.asBool : Json → Option Bool
  | .bool b => some b
  | _ => none

/-- Model of `oid4vp::types::FilterValue` — the one-of `const`/`pattern`/`format`
filter member (spec §4.6); the enum definition is not under src/, its
variants are fixed by src/src/oid4vp/query/dif_exch.rs. -/
inductive FilterValue where
  | const (s : String)
  | pattern (s : String)
  | format (s : String)
  deriving DecidableEq

/-- Model of `oid4vp::types::Filter` — a field filter; only its `value` member is
read by src/src/oid4vp/query/dif_exch.rs (the JSON-schema `type` member
is noted `TODO: check filter.type` and never read). -/
structure PeFilter where
  value : FilterValue
  deriving DecidableEq

/-- Model of `oid4vp::types::Field` — a constraint field (spec §4.6); shape fixed
by its use in src/src/oid4vp/query/dif_exch.rs. -/
structure PeField where
  path : List String
  optional : Option Bool
  filter : Option PeFilter
  deriving DecidableEq

/-- Model of `oid4vp::types::Constraints` (spec §4.6). -/
structure Constraints where
  fields : Option (List PeField)
  deriving DecidableEq

/-- The external collaborators of the constraint matcher:
`jsonPath p v` models `JsonPath::parse(p)` followed by `query(v).all()`
(`none` = parse error); `regexCompile` models `Regex::new` (`none` =
invalid pattern) with the resulting matcher `captures(s).is_some()`;
`isDate`/`isDateTime` model chrono's `%Y-%m-%d` and RFC 3339 parsers. -/
structure PeExt where
  jsonPath : String → Json → Option (List Json)
  regexCompile : String → Option (String → Bool)
  isDate : String → Bool
  isDateTime : String → Bool

/-- Model of `dif_exch::match_const` (src/src/oid4vp/query/dif_exch.rs lines
109-127).  For a string node the source compares against
`const_val.to_string()` — the JSON rendering of the constant, quotes
included; for a bool node it compares against `const_val.as_bool()`,
which is `None` for the string-valued constant; `unimplemented!` for
object nodes is modelled as an error. -/
def matchConst (constStr : String) (vcNode : Json) : Except String Bool :=
  let constVal : Json := .str constStr
  match vcNode with
  | .arr arrNode => .ok (arrNode.containsVal constVal)
  | .str strNode => .ok (strNode = constVal.render)
  | .num numNode => .ok (toString numNode = constStr)
  | .bool boolNode => .ok (some boolNode = constVal.asBool)
  | .null => .ok true
  | .obj _ => .error "panic: object matching not implemented"

/-- Model of `dif_exch::match_pattern` (src/src/oid4vp/query/dif_exch.rs lines
130-139): the regex is run over `vc_node.to_string()` — the JSON
rendering of the node. -/
def matchPattern (ext : PeExt) (pattern : String) (vcNode : Json) : Except String Bool :=
  match ext.regexCompile pattern with
  | none => .error ("invalid regex pattern: " ++ pattern)
  | some re => .ok (re vcNode.render)

/-- Model of `dif_exch::match_format` (src/src/oid4vp/query/dif_exch.rs lines
142-158); the `unimplemented!` arm is modelled as an error. -/
def matchFormat (ext : PeExt) (format : String) (vcNode : Json) : Except String Bool :=
  if format = "date" then
    match vcNode with
    | .str strNode => .ok (ext.isDate strNode)
    | _ => .ok false
  else if format = "date-time" then
    match vcNode with
    | .str strNode => .ok (ext.isDateTime strNode)
    | _ => .ok false
  else .error ("panic: format matching not implemented for " ++ format)

/-- Model of `FilterValue::matched` (src/src/oid4vp/query/dif_exch.rs lines
94-104). -/
def FilterValue.matched (ext : PeExt) : FilterValue → Json → Except String Bool
  | .const c, node => matchConst c node
  | .pattern p, node => matchPattern ext p node
  | .format f, node => matchFormat ext f node

/-- The path loop of `Field::matched` (src/src/oid4vp/query/dif_exch.rs
lines 61-91): the first path that parses and resolves to at least one
node decides; an unparsable path aborts with an error; a filter that
evaluates to false breaks out of the loop, which then returns false. -/
def fieldMatchedLoop (ext : PeExt) (filter : Option PeFilter) (vc : Json) :
    List String → Except String Bool
  | [] => .ok false
  | p :: rest =>
      match ext.jsonPath p vc with
      | none => .error ("Invalid JSONPath: " ++ p)
      | some [] => fieldMatchedLoop ext filter vc rest
      | some (node :: _) =>
          match filter with
          | none => .ok true
          | some f =>
              match f.value.matched ext node with
              | .ok true => .ok true
              | .ok false => .ok false
              | .error e => .error e

/-- Model of `Field::matched` (src/src/oid4vp/query/dif_exch.rs lines 61-91). -/
def PeField.matched (ext : PeExt) (field : PeField) (vc : Json) : Except String Bool :=
  fieldMatchedLoop ext field.filter vc field.path

/-- Model of `Result::unwrap_or_default` on a boolean result. -/
def exceptBool : Except String Bool → Bool
  | .ok b => b
  | .error _ => false

/-- The field loop of `Constraints::satisfied`
(src/src/oid4vp/query/dif_exch.rs lines 43-51). -/
def satisfiedLoop (ext : PeExt) (vc : Json) : List PeField → Except String Bool
  | [] => .ok true
  | field :: rest =>
      if !exceptBool (field.matched ext vc) && !field.optional.getD false then
        .ok false
      else satisfiedLoop ext vc rest

/-- Model of `Constraints::satisfied` (src/src/oid4vp/query/dif_exch.rs lines
34-52).  `conv` is the result of the `vc.try_into()` conversion to
`serde_json::Value` (serde is external). -/
def Constraints.satisfied (ext : PeExt) (c : Constraints) (conv : Except String Json) :
    Except String Bool :=
  match c.fields with
  | none => .ok true
  | some fields =>
      match conv with
      | .error _ => .error "failed to convert Queryable to JSON value"
      | .ok vc => satisfiedLoop ext vc fields

/-- Claim C8's reading of a filter match: `const` is exact equality of
the node with the constant; `pattern` is a regex match; `format` accepts
date / date-time strings. -/
def specFilterMatches (ext : PeExt) : FilterValue → Json → Bool
  | .const c, node => node = .str c
  | .pattern p, node =>
      match ext.regexCompile p with
      | none => false
      | some re => re node.render
  | .format f, node =>
      match f, node with
      | "date", .str s => ext.isDate s
      | "date-time", .str s => ext.isDateTime s
      | _, _ => false

/-- Claim C8's reading of a field match: the first JSONPath in `path[]`
that resolves to a node decides, by the filter when present. -/
def specFieldMatches (ext : PeExt) (field : PeField) (vc : Json) : List String → Bool
  | [] => false
  | p :: rest =>
      match (ext.jsonPath p vc).getD [] with
      | [] => specFieldMatches ext field vc rest
      | node :: _ =>
          match field.filter with
          | none => true
          | some f => specFilterMatches ext f.value node

/-- Claim C8 as a proposition: `Constraints::satisfied` returns true iff
every non-optional field matches in the claim's sense. -/
def C8Statement : Prop :=
  ∀ (ext : PeExt) (c : Constraints) (vc : Json),
    Constraints.satisfied ext c (.ok vc) = .ok true ↔
      ∀ field ∈ c.fields.getD [],
        field.optional.getD false = true ∨ specFieldMatches ext field vc field.path = true

/- ===================== OID4VP response handler ===================== -/

/-- Model of `oid4vp::Error`, the error enum of the presentation side:
its display templates match src/src/oid4vci/error.rs and the vercre-era
unified enum at src/crates/openid4vc/src/error.rs (spec §7); only the
variants the response handler produces are included. -/
inductive Oid4vp.Error where
  | invalidRequest (d : String)
  | serverError (d : String)
  deriving DecidableEq

/-- Model of `core::OneMany` (src/src/core.rs lines 61-67). -/
inductive OneMany (α : Type) where
  | one (x : α)
  | many (xs : List α)
  deriving DecidableEq

/-- The data-integrity proof object attached to a presentation: only its
`challenge` member is read (src/src/w3c_vc/proof.rs lines 168-179); the
`Proof` struct itself is not under src/. -/
structure VpProof where
  challenge : Option String
  deriving DecidableEq

/-- Model of `w3c_vc::vp::VerifiablePresentation` (src/src/w3c_vc/vp.rs): the
verifier reads only `proof` directly; every other member is reached
solely through the external serde serialisation, which is the
`vpToValue` parameter of the verifier. -/
structure Vp where
  proof : Option (OneMany VpProof)
  deriving DecidableEq

/-- Model of `w3c::Bitstring` (src/src/w3c.rs lines 223-249): a bitstring
status-list reference. -/
structure StatusBitstring where
  status_purpose : StatusPurpose
  status_list_index : Nat
  status_list_credential : String
  status_size : Option Nat
  deriving DecidableEq

/-- Model of `w3c::CredentialStatusType` (src/src/w3c.rs lines 198-205). -/
inductive CredentialStatusType where
  | bitstring (b : StatusBitstring)
  deriving DecidableEq

/-- Model of `w3c::CredentialStatus` (src/src/w3c.rs lines 183-195). -/
structure CredentialStatus where
  id : Option String
  credential_status_type : CredentialStatusType
  deriving DecidableEq

/-- Model of `VerifiableCredential` as read by the response handler
(src/src/w3c.rs lines 39-146): the validity window and status
reference; the claims content is reached only through the external
serde conversions (`vcFromValue` / `vcToValue`). -/
structure Vc where
  valid_from : Option Int
  valid_until : Option Int
  credential_status : Option (OneMany CredentialStatus)
  deriving DecidableEq

/-- Model of `w3c_vc::proof::verify` for `Verify::Vp` (src/src/w3c_vc/proof.rs
lines 157-181), returning `(vp, client_id, nonce)`.  For a JWT
presentation the external `jws::decode` is the parameter; for an object
presentation the source requires a single embedded proof and takes the
nonce from `proof.challenge`. -/
def proofVerifyVp (jwsDecodeVp : String → Except String (Vp × String × String))
    (value : Kind Vp) : Except String (Vp × String × String) :=
  match value with
  | .str token => jwsDecodeVp token
  | .object vp =>
      match vp.proof with
      | some (.one p) => .ok (vp, "", p.challenge.getD "")
      | _ => .error "invalid VerifiablePresentation proof"

/-- Modelled from the spec: the `path_nested` member of a descriptor map
entry (`{format, path}`); the type is not under src/, its use is fixed
by src/src/oid4vp/handlers/response.rs lines 162-178. -/
structure PathNested where
  format : String
  path : String
  deriving DecidableEq

/-- Modelled from the spec: a Presentation Submission descriptor-map
entry; use fixed by src/src/oid4vp/handlers/response.rs lines 154-178. -/
structure DescriptorMap where
  id : String
  path_nested : PathNested
  deriving DecidableEq

/-- Modelled from the spec: `PresentationSubmission`
(`{definition_id, descriptor_map}`); use fixed by
src/src/oid4vp/handlers/response.rs. -/
structure PresentationSubmission where
  definition_id : String
  descriptor_map : List DescriptorMap
  deriving DecidableEq

/-- Modelled from the spec: an input descriptor of a Presentation
Definition (spec §4.6); `format` is the key set of the format map,
queried with `contains_key`. -/
structure InputDescriptor where
  id : String
  constraints : Constraints
  format : Option (List String)
  deriving DecidableEq

/-- Modelled from the spec: `PresentationDefinition` (spec §3). -/
structure PresentationDefinition where
  id : String
  input_descriptors : List InputDescriptor
  deriving DecidableEq

/-- Modelled from the spec: `oid4vp::types::Query` — the requested-
credentials query of a Request Object, `Query∈{Dcql, Definition,
DefinitionUri}` (spec §9 design notes); the response handler accepts
only the `Definition` variant. -/
inductive VpQuery where
  | dcql
  | definition (d : PresentationDefinition)
  | definitionUri (u : String)
  deriving DecidableEq

/-- The Request Object members read by the response handler: `nonce` and
`query` (src/src/oid4vp/types/request.rs, with `query` as used by
src/src/oid4vp/handlers/response.rs). -/
structure VpRequestObject where
  client_id : String
  nonce : String
  query : VpQuery
  deriving DecidableEq

/-- Model of the verifier's `oid4vp::state::State`:
`{expires_at, request_object}`, with field use fixed by
src/src/oid4vp/handlers/create_request.rs lines 57-60 and the same shape
defined at src/vercre-vp/src/state.rs and src/vercre-verifier/src/state.rs. -/
structure VpState where
  expires_at : Int
  request_object : VpRequestObject
  deriving DecidableEq

/-- A list model of the verifier's `StateStore`. -/
def VpStore := List (String × VpState)

/-- Model of `StateStore::get` on the verifier store. -/
def VpStore.get (store : VpStore) (key : String) : Option VpState :=
  (List.find? (fun p => p.1 = key) store).map Prod.snd

/-- Model of `StateStore::purge` on the verifier store. -/
def VpStore.purge (store : VpStore) (key : String) : VpStore :=
  List.filter (fun p => ¬ p.1 = key) store

/-- Modelled from the spec: `oid4vp::types::AuthorzationResponse` (the
source's spelling) — the wallet's authorization response
`{vp_token, presentation_submission?, state}` (spec §4.2.3); the struct
is not under src/, its members are fixed by
src/src/oid4vp/handlers/response.rs. -/
structure AuthorzationResponse where
  vp_token : Option (List (Kind Vp))
  presentation_submission : Option PresentationSubmission
  state : Option String
  deriving DecidableEq

/-- Modelled from the spec: `oid4vp::types::RedirectResponse` —
`{redirect_uri?, response_code?}` (spec §4.2.3); construction fixed by
src/src/oid4vp/handlers/response.rs lines 58-64. -/
structure RedirectResponse where
  redirect_uri : Option String
  response_code : Option String
  deriving DecidableEq

/-- The external collaborators of the response verifier: the constraint
matcher's externals, `jws::decode` for VP tokens (returning
`(vp, aud, nonce)`) and for VC tokens, and the serde conversions between
credentials/presentations and JSON values. -/
structure VpExt where
  pe : PeExt
  jwsDecodeVp : String → Except String (Vp × String × String)
  vpToValue : Vp → Json
  jwsDecodeVc : String → Except String Vc
  vcFromValue : Json → Except String Vc
  vcToValue : Vc → Except String Json

/-- Build a `JsonArr` from a list of values. -/
def JsonArr.ofList : List Json → JsonArr
  | [] => .nil
  | j :: rest => .cons j (JsonArr.ofList rest)

/-- The VP-token loop of `response::verify`
(src/src/oid4vp/handlers/response.rs lines 104-118): verify each
presentation's proof and check its nonce against the saved request. -/
def nonceLoop (ext : VpExt) (savedNonce : String) : List (Kind Vp) →
    Except Oid4vp.Error (List Vp)
  | [] => .ok []
  | vpVal :: rest =>
      match proofVerifyVp ext.jwsDecodeVp vpVal with
      | .error e => .error (.serverError ("issue verifying VP proof: " ++ e))
      | .ok (vp, _, nonce) =>
          if nonce ≠ savedNonce then .error (.invalidRequest "nonce does not match")
          else do
            let tl ← nonceLoop ext savedNonce rest
            .ok (vp :: tl)

/-- The input-descriptor loop of `response::verify`
(src/src/oid4vp/handlers/response.rs lines 152-214).  The source's
`.expect("should decode")` on a failing `jws::decode` is a panic,
modelled as an error. -/
def inputLoop (ext : VpExt) (now : Int) (vpVal : Json)
    (descMap : List DescriptorMap) : List InputDescriptor → Except Oid4vp.Error Unit
  | [] => .ok ()
  | input :: rest => do
      -- find Input Descriptor Mapping Object
      let some mapping := descMap.find? (fun idmo => idmo.id = input.id)
        | throw (.invalidRequest ("input descriptor mapping req_obj not found for " ++ input.id))
      -- check VC format matches a requested format
      if let some fmt := input.format then
        if ¬ fmt.contains mapping.path_nested.format then
          throw (.invalidRequest ("invalid format " ++ mapping.path_nested.format))
      -- search VP Token for VC specified by mapping path
      let nodes ←
        match ext.pe.jsonPath mapping.path_nested.path vpVal with
        | none => throw (.serverError "issue parsing JSON Path")
        | some ns => pure ns
      let [vcNode] := nodes
        | throw (.invalidRequest ("no match for path_nested " ++ mapping.path_nested.path))
      let vc : Vc ←
        match vcNode with
        | .str token =>
            match ext.jwsDecodeVc token with
            | .error _ => throw (.serverError "panic: should decode")
            | .ok vc => pure vc
        | .obj _ =>
            match ext.vcFromValue vcNode with
            | .error e => throw (.serverError ("issue deserializing vc: " ++ e))
            | .ok vc => pure vc
        | _ => throw (.invalidRequest "unexpected VC format")
      -- verify input constraints have been met
      let sat ←
        match input.constraints.satisfied ext.pe (ext.vcToValue vc) with
        | .error e => throw (.serverError ("issue matching constraints: " ++ e))
        | .ok b => pure b
      if ¬ sat then throw (.invalidRequest "input constraints not satisfied")
      -- check VC is valid (hasn't expired, been revoked, etc)
      match vc.valid_until with
      | some exp =>
          if exp < now then throw (.invalidRequest "credential has expired")
          else inputLoop ext now vpVal descMap rest
      | none => inputLoop ext now vpVal descMap rest

/-- Model of `response::verify` (src/src/oid4vp/handlers/response.rs lines
85-221).  Its only state-store interaction is the initial `get`; it
never modifies the store. -/
def vpVerify (ext : VpExt) (now : Int) (store : VpStore) (req : AuthorzationResponse) :
    Except Oid4vp.Error Unit := do
  -- get state by client state key
  let some stateKey := req.state | throw (.invalidRequest "client state not found")
  let some state := store.get stateKey | throw (.invalidRequest "state not found")
  let savedReq := state.request_object
  let some vpToken := req.vp_token | throw (.invalidRequest "vp_token not founnd")
  -- check nonce matches
  let vps ← nonceLoop ext savedReq.nonce vpToken
  let some subm := req.presentation_submission
    | throw (.invalidRequest "no presentation_submission")
  let .definition defn := savedReq.query
    | throw (.invalidRequest "presentation_definition_uri is unsupported")
  -- verify presentation subm matches definition
  if subm.definition_id ≠ defn.id then
    throw (.invalidRequest "definition_ids do not match")
  -- convert VP Token to JSON Value for JSONPath querying
  let vpVal : Json :=
    match vps with
    | [vp] => ext.vpToValue vp
    | _ => .arr (JsonArr.ofList (vps.map ext.vpToValue))
  inputLoop ext now vpVal subm.descriptor_map defn.input_descriptors

/-- The `response` handler (src/src/oid4vp/handlers/response.rs lines
44-65): verify, then purge the state key, then answer with the fixed
redirect.  A failing `verify` returns before the purge. -/
def vpResponse (ext : VpExt) (now : Int) (store : VpStore) (req : AuthorzationResponse) :
    Except Oid4vp.Error RedirectResponse × VpStore :=
  match vpVerify ext now store req with
  | .error e => (.error e, store)
  | .ok () =>
      -- clear state
      match req.state with
      | none => (.error (.invalidRequest "client state not found"), store)
      | some stateKey =>
          (.ok { redirect_uri := some "http://localhost:3000/cb", response_code := none },
           store.purge stateKey)

/- ===================== Fixtures and small helpers ===================== -/

/-- Whether a flow state is in the `Offered` stage. -/
def Stage.isOffered : Stage → Bool
  | .offered _ => true
  | _ => false

/-- Modelled from the spec: plain member access `$.key` (and the root
`$`) of RFC 9535 JSONPath — serde-json-path is an external crate; this
concrete instantiation of the `jsonPath` parameter is used to evaluate
the matcher on concrete inputs. -/
def simpleJsonPath (p : String) (v : Json) : Option (List Json) :=
  if p = "$" then some [v]
  else
    match p.data with
    | '$' :: '.' :: rest =>
        if rest ≠ [] && !rest.contains '.' then
          match v with
          | .obj kvs =>
              match kvs.lookupKey (String.mk rest) with
              | some x => some [x]
              | none => some []
          | _ => some []
        else none
    | _ => none

/-- Concrete constraint-matcher externals for evaluation: plain-path
JSONPath, no regexes, no date formats. -/
def peExt0 : PeExt :=
  { jsonPath := simpleJsonPath, regexCompile := fun _ => none,
    isDate := fun _ => false, isDateTime := fun _ => false }

/-- Concrete response-verifier externals that leave every abstract
collaborator inert; runs built on them exercise only embedded-proof
(object) presentations. -/
def vpExt0 : VpExt :=
  { pe := peExt0, jwsDecodeVp := fun _ => .error "no jws",
    vpToValue := fun _ => .obj .nil, jwsDecodeVc := fun _ => .error "no jws",
    vcFromValue := fun _ => .error "not a credential", vcToValue := fun _ => .ok .null }

/-- A presentation carrying an embedded proof whose challenge is the
request nonce `"n"`. -/
def vpEmbedded : Vp := { proof := some (.one { challenge := some "n" }) }

/-- A stored presentation request whose definition has no input
descriptors. -/
def vpStateEmpty : VpState :=
  { expires_at := 9999,
    request_object :=
      { client_id := "client-1", nonce := "n",
        query := .definition { id := "def-1", input_descriptors := [] } } }

/-- A store holding `vpStateEmpty` under key `"s1"`. -/
def vpStore1 : VpStore := [("s1", vpStateEmpty)]

/-- A wallet response matching `vpStateEmpty`: empty VP token list and
empty descriptor map. -/
def vpReqEmpty : AuthorzationResponse :=
  { vp_token := some [], presentation_submission :=
      some { definition_id := "def-1", descriptor_map := [] },
    state := some "s1" }

/-- A wallet response missing its `vp_token`. -/
def vpReqNoToken : AuthorzationResponse :=
  { vp_token := none, presentation_submission :=
      some { definition_id := "def-1", descriptor_map := [] },
    state := some "s1" }

/-- A credential that is not yet valid (`valid_from` in the future of
`now = 0`) and carries a revocation status-list reference. -/
def vcFutureRevoked : Vc :=
  { valid_from := some 1000, valid_until := none,
    credential_status := some (.one
      { id := some "https://example.com/status/1#42",
        credential_status_type := .bitstring
          { status_purpose := .revocation, status_list_index := 42,
            status_list_credential := "https://example.com/status/1",
            status_size := none } }) }

/-- Externals whose credential deserialisation yields
`vcFutureRevoked`. -/
def vpExtRevoked : VpExt :=
  { vpExt0 with vcFromValue := fun _ => .ok vcFutureRevoked }

/-- Externals yielding a credential with the given validity window and
status; used to show the response depends only on `valid_until`. -/
def vpExtWith (vf vu : Option Int) (st : Option (OneMany CredentialStatus)) : VpExt :=
  { vpExt0 with vcFromValue :=
      (fun _ => .ok { valid_from := vf, valid_until := vu, credential_status := st }) }

/-- A stored request with one unconstrained input descriptor. -/
def vpStateOneInput : VpState :=
  { expires_at := 9999,
    request_object :=
      { client_id := "client-1", nonce := "n",
        query := .definition
          { id := "def-1",
            input_descriptors :=
              [{ id := "input-1", constraints := { fields := none }, format := none }] } } }

/-- A store holding `vpStateOneInput` under key `"s1"`. -/
def vpStoreOneInput : VpStore := [("s1", vpStateOneInput)]

/-- A wallet response presenting one embedded-proof presentation for the
single input descriptor, mapped at the root path. -/
def vpReqOneInput : AuthorzationResponse :=
  { vp_token := some [.object vpEmbedded],
    presentation_submission := some
      { definition_id := "def-1",
        descriptor_map :=
          [{ id := "input-1", path_nested := { format := "jwt_vc_json", path := "$" } }] },
    state := some "s1" }

/- ===================== Theorems ===================== -/

theorem VpStore.get_purge_none (store : VpStore) (k : String) :
    (store.purge k).get k = none := by
  induction store with
  | nil => rfl
  | cons hd tl ih =>
      by_cases h : hd.1 = k
      · simpa [VpStore.purge, h] using ih
      · simpa [VpStore.purge, VpStore.get, List.find?, h] using ih

/-- C1.  The claim as stated is false: a failing `verify` returns before
the purge, so on failure the state entry survives.  Concretely, a
response whose `vp_token` is missing fails with `invalid_request` while
the store still holds the entry for its `state` key. -/
theorem C1_counterexample :
    vpResponse vpExt0 0 vpStore1 vpReqNoToken =
      (.error (.invalidRequest "vp_token not founnd"), vpStore1) ∧
    vpStore1.get "s1" = some vpStateEmpty := by
  constructor <;> rfl

/-- C1 (amended).  The `response` handler purges the state entry keyed by
the submitted `state` only on success: on failure the store is returned
unchanged, and after a successful response the entry is gone, so a replay
of the same `state` key fails with `invalid_request` ("state not found"). -/
theorem C1_amended (ext : VpExt) (now : Int) (store : VpStore)
    (req : AuthorzationResponse) :
    (∀ e store2, vpResponse ext now store req = (.error e, store2) → store2 = store) ∧
    (∀ r store2, vpResponse ext now store req = (.ok r, store2) →
      ∃ k, req.state = some k ∧ store2 = store.purge k ∧
        vpResponse ext now store2 req =
          (.error (.invalidRequest "state not found"), store2)) := by
  constructor
  · intro e store2 h
    unfold vpResponse at h
    cases hv : vpVerify ext now store req with
    | error e2 => rw [hv] at h; exact (Prod.mk.injEq _ _ _ _ ▸ h).2.symm
    | ok u =>
        rw [hv] at h
        cases hs : req.state with
        | none => rw [hs] at h; exact (Prod.mk.injEq _ _ _ _ ▸ h).2.symm
        | some k => rw [hs] at h; exact absurd (Prod.mk.injEq _ _ _ _ ▸ h).1 (by simp)
  · intro r store2 h
    unfold vpResponse at h
    cases hv : vpVerify ext now store req with
    | error e2 => rw [hv] at h; exact absurd (Prod.mk.injEq _ _ _ _ ▸ h).1 (by simp)
    | ok u =>
        rw [hv] at h
        cases hs : req.state with
        | none => rw [hs] at h; exact absurd (Prod.mk.injEq _ _ _ _ ▸ h).1 (by simp)
        | some k =>
            rw [hs] at h
            have h2 := (Prod.mk.injEq _ _ _ _ ▸ h).2
            refine ⟨k, rfl, h2.symm, ?_⟩
            have hget : (store.purge k).get k = none := VpStore.get_purge_none store k
            have hverify : vpVerify ext now (store.purge k) req =
                .error (.invalidRequest "state not found") := by
              unfold vpVerify
              rw [hs]
              simp only [hget]
              rfl
            unfold vpResponse
            rw [← h2, hverify]

/-- Witness for C1 (amended): on the concrete successful run the entry is
purged and the replay fails with `invalid_request`; on the concrete
failing run the store is unchanged. -/
theorem C1_amended_witness :
    vpResponse vpExt0 0 ([] : VpStore) vpReqEmpty =
      (.error (.invalidRequest "state not found"), ([] : VpStore)) := by
  obtain ⟨k, hk, hpurge, hreplay⟩ :=
    (C1_amended vpExt0 0 vpStore1 vpReqEmpty).2
      { redirect_uri := some "http://localhost:3000/cb", response_code := none }
      ([] : VpStore) (by rfl)
  exact hreplay

/-- C10.  Every successfully handled authorization response returns the
fixed redirect `http://localhost:3000/cb` and no `response_code`,
whatever the verifier, stored request object or submitted VP token
(src/src/oid4vp/handlers/response.rs lines 58-64). -/
theorem C10_fixed_redirect (ext : VpExt) (now : Int) (store : VpStore)
    (req : AuthorzationResponse) (r : RedirectResponse) (store2 : VpStore)
    (h : vpResponse ext now store req = (.ok r, store2)) :
    r.redirect_uri = some "http://localhost:3000/cb" ∧ r.response_code = none := by
  unfold vpResponse at h
  cases hv : vpVerify ext now store req with
  | error e => rw [hv] at h; exact absurd (Prod.mk.injEq _ _ _ _ ▸ h).1 (by simp)
  | ok u =>
      rw [hv] at h
      cases hs : req.state with
      | none => rw [hs] at h; exact absurd (Prod.mk.injEq _ _ _ _ ▸ h).1 (by simp)
      | some k =>
          rw [hs] at h
          have h1 := (Prod.mk.injEq _ _ _ _ ▸ h).1
          have h2 : r = { redirect_uri := some "http://localhost:3000/cb",
                          response_code := none } := by
            exact (Except.ok.injEq _ _ ▸ h1).symm
          rw [h2]
          exact ⟨rfl, rfl⟩

/-- Witness for C10: a concrete successful run. -/
theorem C10_fixed_redirect_witness :
    (vpResponse vpExt0 0 vpStore1 vpReqEmpty =
      (.ok { redirect_uri := some "http://localhost:3000/cb", response_code := none },
        ([] : VpStore))) ∧
    (some "http://localhost:3000/cb" = some "http://localhost:3000/cb" ∧
      (none : Option String) = none) :=
  ⟨by rfl, C10_fixed_redirect vpExt0 0 vpStore1 vpReqEmpty _ ([] : VpStore) (by rfl)⟩

/-- C5.  The claim as stated is false: the response handler checks only
`valid_until`; it never compares `valid_from` with the clock and never
resolves `credential_status` (the status check is commented out,
src/src/oid4vp/handlers/response.rs lines 205-213).  Concretely, a
response presenting a credential whose `valid_from` lies in the future
of `now = 0` and which carries a revocation status-list reference is
accepted. -/
theorem C5_counterexample :
    vpResponse vpExtRevoked 0 vpStoreOneInput vpReqOneInput =
      (.ok { redirect_uri := some "http://localhost:3000/cb", response_code := none },
        ([] : VpStore)) ∧
    vcFutureRevoked.valid_from = some 1000 ∧ (0 : Int) < 1000 ∧
    vcFutureRevoked.credential_status = some (.one
      { id := some "https://example.com/status/1#42",
        credential_status_type := .bitstring
          { status_purpose := .revocation, status_list_index := 42,
            status_list_credential := "https://example.com/status/1",
            status_size := none } }) := by
  refine ⟨by rfl, rfl, by norm_num, rfl⟩

/-- C5 (amended).  Credential validity checking in the response handler
consists solely of the `valid_until` test: a credential whose
`valid_until` has passed is rejected with `invalid_request`
("credential has expired"), while `valid_from` and `credential_status`
are ignored — the run's outcome is unchanged under any values of those
two fields. -/
theorem C5_amended :
    (∀ vf st, vpResponse (vpExtWith vf none st) 0 vpStoreOneInput vpReqOneInput =
      (.ok { redirect_uri := some "http://localhost:3000/cb", response_code := none },
        ([] : VpStore))) ∧
    (∀ vf st (now exp : Int), exp < now →
      vpResponse (vpExtWith vf (some exp) st) now vpStoreOneInput vpReqOneInput =
        (.error (.invalidRequest "credential has expired"), vpStoreOneInput)) := by
  constructor
  · intro vf st
    rfl
  · intro vf st now exp hlt
    have : vpVerify (vpExtWith vf (some exp) st) now vpStoreOneInput vpReqOneInput =
        .error (.invalidRequest "credential has expired") := by
      unfold vpVerify
      simp only [vpReqOneInput, vpStoreOneInput, vpStateOneInput, vpExtWith, vpExt0,
        vpEmbedded, peExt0]
      simp [nonceLoop, proofVerifyVp, inputLoop, Constraints.satisfied, simpleJsonPath,
        VpStore.get, List.find?, hlt, Except.bind, Bind.bind, pure, Pure.pure, Except.pure, throw, throwThe, MonadExceptOf.throw]
    unfold vpResponse
    rw [this]

/-- Witness for C5 (amended): the expiry rejection instantiated at
concrete values. -/
theorem C5_amended_witness :
    (0 : Int) < 1 ∧
    vpResponse (vpExtWith none (some 0) none) 1 vpStoreOneInput vpReqOneInput =
      (.error (.invalidRequest "credential has expired"), vpStoreOneInput) :=
  ⟨by norm_num, C5_amended.2 none none 1 0 (by norm_num)⟩

theorem VciStore.get_purge_absent (store : VciStore) (k : String) :
    (store.purge k).get k = none := by
  induction store with
  | nil => rfl
  | cons hd tl ih =>
      by_cases h : hd.1 = k
      · simpa [VciStore.purge, h] using ih
      · simpa [VciStore.purge, VciStore.get, List.find?, h] using ih

/-- C6.  The claim as stated is false: when no state entry exists for the
requested id, the failing `StateStore::get` is wrapped by the `server!`
macro, so the fetch fails with `server_error`, not `invalid_request`
(src/src/oid4vci/issuer/credential_offer.rs lines 35-37). -/
theorem C6_counterexample :
    credential_offer 0 ([] : VciStore) { id := "tok-1" } =
      (.error (.serverError "issue fetching state: not found"), ([] : VciStore)) := by
  rfl

/-- C6 (amended).  The `credential_offer` fetch retrieves and then purges
the `Pending` entry under the requested id and returns the stored offer
exactly once; an entry that is still present but expired fails with
`invalid_request`, while a missing entry — including every replay after
a successful fetch — fails with `server_error`. -/
theorem C6_amended (now : Int) (store : VciStore) (req : CredentialOfferRequest) :
    (store.get req.id = none →
      credential_offer now store req =
        (.error (.serverError "issue fetching state: not found"), store)) ∧
    (∀ st, store.get req.id = some st → st.isExpired now = true →
      credential_offer now store req =
        (.error (.invalidRequest "state expired"), store.purge req.id)) ∧
    (∀ st offer, store.get req.id = some st → st.isExpired now = false →
      st.stage = .pending offer →
      credential_offer now store req =
        (.ok { credential_offer := offer }, store.purge req.id) ∧
      credential_offer now (store.purge req.id) req =
        (.error (.serverError "issue fetching state: not found"), store.purge req.id)) ∧
    (∀ st, store.get req.id = some st → st.isExpired now = false →
      (∀ offer, st.stage ≠ .pending offer) →
      credential_offer now store req =
        (.error (.invalidRequest "no credential offer found"), store.purge req.id)) := by
  refine ⟨?_, ?_, ?_, ?_⟩
  · intro h
    unfold credential_offer
    rw [h]
  · intro st h hexp
    unfold credential_offer
    rw [h]
    simp [hexp]
  · intro st offer h hexp hstage
    constructor
    · unfold credential_offer
      rw [h]
      simp [hexp, hstage]
    · unfold credential_offer
      rw [VciStore.get_purge_absent store req.id]
  · intro st h hexp hstage
    unfold credential_offer
    rw [h]
    cases hst : st.stage with
    | pending offer => exact absurd hst (hstage offer)
    | offered o => simp [hexp, hst]
    | authorized => simp [hexp, hst]
    | deferred => simp [hexp, hst]

/-- Witness for C6 (amended): a concrete pending entry is fetched once
and the replay fails with `server_error`. -/
theorem C6_amended_witness :
    (VciStore.get [("tok-1",
      { expires_at := 100, subject_id := none,
        stage := .pending { credential_configuration_ids := ["EmployeeID_JWT"],
                            grants := none } })] "tok-1" =
      some { expires_at := 100, subject_id := none,
             stage := .pending { credential_configuration_ids := ["EmployeeID_JWT"],
                                 grants := none } }) ∧
    (VciState.isExpired 0
      { expires_at := 100, subject_id := none,
        stage := .pending { credential_configuration_ids := ["EmployeeID_JWT"],
                            grants := none } } = false) ∧
    (credential_offer 0
        [("tok-1",
          { expires_at := 100, subject_id := none,
            stage := .pending { credential_configuration_ids := ["EmployeeID_JWT"],
                                grants := none } })] { id := "tok-1" } =
      (.ok { credential_offer := { credential_configuration_ids := ["EmployeeID_JWT"],
                                   grants := none } },
        VciStore.purge [("tok-1",
          { expires_at := 100, subject_id := none,
            stage := .pending { credential_configuration_ids := ["EmployeeID_JWT"],
                                grants := none } })] "tok-1") ∧
      credential_offer 0
        (VciStore.purge [("tok-1",
          { expires_at := 100, subject_id := none,
            stage := .pending { credential_configuration_ids := ["EmployeeID_JWT"],
                                grants := none } })] "tok-1") { id := "tok-1" } =
        (.error (.serverError "issue fetching state: not found"),
          VciStore.purge [("tok-1",
            { expires_at := 100, subject_id := none,
              stage := .pending { credential_configuration_ids := ["EmployeeID_JWT"],
                                  grants := none } })] "tok-1")) := by
  refine ⟨by rfl, by rfl, ?_⟩
  exact (C6_amended 0
    [("tok-1",
      { expires_at := 100, subject_id := none,
        stage := .pending { credential_configuration_ids := ["EmployeeID_JWT"],
                            grants := none } })] { id := "tok-1" }).2.2.1
    _ _ (by rfl) (by rfl) (by rfl)

/-- C7.  The claim as stated is false: the serialised `invalid_proof`
error carries only the `error` and `error_description` members — the
serialisation path round-trips through `OidError`, which has no
`c_nonce` or `c_nonce_expires_in` member at all
(src/src/oid4vci/error.rs lines 107-111 and 149-168). -/
theorem C7_counterexample :
    Oid4vci.Error.serialized (.invalidProof "proof invalid") =
      .ok [("error", "invalid_proof"), ("error_description", "proof invalid")] ∧
    (Oid4vci.Error.serialized (.invalidProof "proof invalid")).map
      (fun ms => (ms.map Prod.fst).contains "c_nonce") = .ok false := by
  exact ⟨by rfl, by rfl⟩

/-- C7 (amended).  Every serialised `invalid_proof` error response
carries exactly the `error` and `error_description` members (no
`c_nonce`, no `c_nonce_expires_in`), for every description that
interpolates into the display template as valid JSON. -/
theorem C7_amended (d : String) (h : jsonSafe d = true) :
    Oid4vci.Error.serialized (.invalidProof d) =
      .ok [("error", "invalid_proof"), ("error_description", d)] := by
  unfold Oid4vci.Error.serialized Oid4vci.Error.toOid
  simp [Oid4vci.Error.description, Oid4vci.Error.code, h, OidError.members, Except.map]

/-- Witness for C7 (amended). -/
theorem C7_amended_witness :
    jsonSafe "proof invalid" = true ∧
    Oid4vci.Error.serialized (.invalidProof "proof invalid") =
      .ok [("error", "invalid_proof"), ("error_description", "proof invalid")] :=
  ⟨by decide, C7_amended "proof invalid" (by decide)⟩

/-- C3.  Every presentation built by `SdJwtVpBuilder::build` appends a
key-binding JWT with header typ `"kb+jwt"` and payload
`{nonce = the supplied nonce, aud = the verifier's client_id, iat = the
build time, sd_hash = base64url(SHA-256(sd))}` where `sd` is the issuer
JWT and the disclosures joined with `~`, signed by the holder's signer
(src/src/sd_jwt/present.rs lines 113-158). -/
theorem C3_kb_jwt {σ : Type} (sha : List Nat → List Nat)
    (mkJws : σ → String → KbJwtClaims → String) (signer : σ) (salts : Nat → String)
    (q : Queryable) (verifier nonce : String) (now : Int) (cred : String)
    (discs : List String)
    (hcred : q.credential = Kind.str cred)
    (hdiscs : buildDisclosures salts 0 q.claims = .ok discs) :
    sdJwtVpBuild sha mkJws signer salts q verifier (some nonce) now =
      .ok ((cred ++ "~" ++ String.intercalate "~" discs) ++ "~" ++
        mkJws signer "kb+jwt"
          { nonce := nonce, aud := verifier, iat := now,
            sd_hash := b64url (sha (strBytes
              (cred ++ "~" ++ String.intercalate "~" discs))) }) := by
  unfold sdJwtVpBuild
  rw [hcred]
  simp [Kind.asStr, hdiscs, JwtType.toStr, Except.bind, Bind.bind]

/-- Witness for C3: the build equation at a concrete credential, claim,
salt stream, stand-in hash and stand-in signer. -/
theorem C3_kb_jwt_witness :
    (({ claims := [{ path := ["given_name"], value := .str "Alice" }],
        credential := .str "ISSUER.JWT.SIG" } : Queryable).credential =
      Kind.str "ISSUER.JWT.SIG") ∧
    (buildDisclosures (fun _ => "SALTSALT") 0
      [{ path := ["given_name"], value := .str "Alice" }] =
      .ok [(Disclosure.new "given_name" (.str "Alice") "SALTSALT").encoded]) ∧
    sdJwtVpBuild (fun l => l)
      (fun (_ : Unit) t c => t ++ "." ++ c.nonce ++ "." ++ c.aud ++ "." ++ c.sd_hash)
      () (fun _ => "SALTSALT")
      { claims := [{ path := ["given_name"], value := .str "Alice" }],
        credential := .str "ISSUER.JWT.SIG" } "verifier-1" (some "n") 7 =
      .ok (("ISSUER.JWT.SIG" ++ "~" ++ String.intercalate "~"
          [(Disclosure.new "given_name" (.str "Alice") "SALTSALT").encoded]) ++ "~" ++
        ("kb+jwt" ++ "." ++ "n" ++ "." ++ "verifier-1" ++ "." ++
          b64url (strBytes ("ISSUER.JWT.SIG" ++ "~" ++ String.intercalate "~"
            [(Disclosure.new "given_name" (.str "Alice") "SALTSALT").encoded])))) :=
  ⟨rfl, rfl,
    C3_kb_jwt (fun l => l)
      (fun (_ : Unit) t c => t ++ "." ++ c.nonce ++ "." ++ c.aud ++ "." ++ c.sd_hash)
      () (fun _ => "SALTSALT")
      { claims := [{ path := ["given_name"], value := .str "Alice" }],
        credential := .str "ISSUER.JWT.SIG" } "verifier-1" "n" 7 "ISSUER.JWT.SIG"
      [(Disclosure.new "given_name" (.str "Alice") "SALTSALT").encoded] rfl rfl⟩

/-- C2.  `SdJwtVpBuilder::build` does not concatenate the issuer's
original disclosures: it rebuilds each disclosure with a fresh random
salt (`Disclosure::new` at src/src/sd_jwt/present.rs line 131, salting
at src/src/format/sd_jwt.rs line 145), so the presented disclosure
differs from the issued one whenever the fresh salt differs from the
original, and its digest cannot appear in the issuer JWT's `_sd` array.
Evaluated at a one-claim credential: the build emits the re-salted
encoding, which differs from the issued encoding, and (for a lossless
stand-in hash) so do the digests. -/
theorem C2_fresh_salt :
    sdJwtVpBuild (fun l => l) (fun (_ : Unit) t _ => t) () (fun _ => "fresh-salt")
      { claims := [{ path := ["given_name"], value := .str "Alice" }],
        credential := .str "ISSUERJWT" } "verifier-1" (some "n") 0 =
      .ok ("ISSUERJWT~" ++
        (Disclosure.new "given_name" (.str "Alice") "fresh-salt").encoded ++
        "~kb+jwt") ∧
    (Disclosure.new "given_name" (.str "Alice") "fresh-salt").encoded ≠
      (Disclosure.new "given_name" (.str "Alice") "issuance-salt").encoded ∧
    Disclosure.hashed (fun l => l)
        (Disclosure.new "given_name" (.str "Alice") "fresh-salt") ≠
      Disclosure.hashed (fun l => l)
        (Disclosure.new "given_name" (.str "Alice") "issuance-salt") := by
  exact ⟨by rfl, by decide, by decide⟩

theorem satisfiedLoop_iff (ext : PeExt) (vc : Json) (fields : List PeField) :
    satisfiedLoop ext vc fields = .ok true ↔
      ∀ field ∈ fields, field.optional.getD false = true ∨
        exceptBool (field.matched ext vc) = true := by
  induction fields with
  | nil => simp [satisfiedLoop]
  | cons f rest ih =>
      unfold satisfiedLoop
      cases ha : exceptBool (f.matched ext vc) with
      | true => simp [ha, ih]
      | false =>
          cases hb : f.optional.getD false with
          | true => simp [ha, hb, ih]
          | false => simp [ha, hb]

/-- C8.  The claim as stated is false: the `const` filter does not test
exact equality of the node with the constant.  For a string node the
source compares the raw string against `const_val.to_string()` — the
JSON rendering of the constant, quotes included — so a node exactly
equal to the constant never matches (src/src/oid4vp/query/dif_exch.rs
line 119; the corresponding `test_const` is `#[ignore]`d).  At the
concrete input `vc = {"x": "a"}` with a non-optional field
`path = ["$.x"], const = "a"`, the claim's reading makes the field
match, while `Constraints::satisfied` returns false. -/
theorem C8_counterexample : ¬ C8Statement := by
  intro h
  have hiff := h peExt0
    { fields := some [{ path := ["$.x"], optional := none,
                        filter := some { value := .const "a" } }] }
    (.obj (.cons "x" (.str "a") .nil))
  have hl := hiff.mpr (by decide)
  have hfalse : Constraints.satisfied peExt0
      { fields := some [{ path := ["$.x"], optional := none,
                          filter := some { value := .const "a" } }] }
      (.ok (.obj (.cons "x" (.str "a") .nil))) = .ok false := by rfl
  rw [hfalse] at hl
  simp at hl

/-- C8 (amended).  `Constraints::satisfied` returns true iff every
non-optional field matches under the implemented semantics of
`Field::matched`: the first JSONPath in `path[]` that parses and
resolves to a node decides, where a `const` filter matches an array
node by membership, a string node only when it equals the
JSON-rendered (quoted) constant, a number node by its decimal
rendering, a bool node never, and a null node always; a `pattern`
filter runs the regex over the node's JSON rendering; a `format`
filter accepts date / date-time strings; a field whose match errors
counts as unmatched. -/
theorem C8_amended (ext : PeExt) (c : Constraints) (vc : Json) :
    Constraints.satisfied ext c (.ok vc) = .ok true ↔
      ∀ field ∈ c.fields.getD [], field.optional.getD false = true ∨
        exceptBool (field.matched ext vc) = true := by
  cases hf : c.fields with
  | none => simp [Constraints.satisfied, hf]
  | some fields => simp [Constraints.satisfied, hf, satisfiedLoop_iff]

/-- C9.  When a create_offer request carries both the pre-authorized-code
and the authorization-code grant types, the single `generate::auth_code()`
value is used both as the `pre_authorized_code` of the pre-authorized
grant and as the `issuer_state` of the authorization-code grant
(src/src/oid4vci/issuer/create_offer.rs lines 170-206), and exactly one
`Offered` state entry — keyed by that shared code via `state_key` — is
persisted for the two grants. -/
theorem C9_shared_code (issuer : IssuerMeta) (server : ServerMeta)
    (authorizeFn : String → String → Except String (List String))
    (authCode txCode uriToken : String) (now : Int) (issuerId : String)
    (req : CreateOfferRequest) (gts : List GrantType)
    (resp : CreateOfferResponse) (puts : List (String × VciState))
    (offer : CredentialOffer)
    (hgt : req.grant_types = some gts)
    (hpre : gts.contains .preAuthorizedCode = true)
    (hauth : gts.contains .authorizationCode = true)
    (hobj : createOfferObj issuer authCode req = .ok offer)
    (hok : create_offer issuer server authorizeFn authCode txCode uriToken now issuerId req
        = .ok (resp, puts)) :
    (∃ g, offer.grants = some g ∧
      g.pre_authorized_code.map (fun p => p.pre_authorized_code) = some authCode ∧
      g.authorization_code.bind (fun a => a.issuer_state) = some authCode) ∧
    (puts.filter (fun p => p.2.stage.isOffered)).map Prod.fst = [authCode] := by
  have hpre2 : GrantType.preAuthorizedCode ∈ gts := by simpa using hpre
  have hauth2 : GrantType.authorizationCode ∈ gts := by simpa using hauth
  have hgrants : ∃ srv, offer.grants = some
      { authorization_code := some { issuer_state := some authCode,
                                     authorization_server := srv },
        pre_authorized_code := some
          { pre_authorized_code := authCode,
            tx_code := if req.tx_code_required then
                some { input_mode := some "numeric", length := some 6,
                       description := some "Please provide the one-time code received" }
              else none,
            authorization_server := srv } } := by
    unfold createOfferObj at hobj
    rw [hgt] at hobj
    cases hsrv : issuer.authorization_servers with
    | none =>
        rw [hsrv] at hobj
        refine ⟨none, ?_⟩
        simp [Except.bind, Bind.bind, pure, Pure.pure, Except.pure, hpre, hauth] at hobj
        rw [← hobj]
        simp [hpre2, hauth2]
    | some servers =>
        cases servers with
        | nil =>
            rw [hsrv] at hobj
            simp [Except.bind, Bind.bind] at hobj
        | cons s rest =>
            rw [hsrv] at hobj
            refine ⟨some s, ?_⟩
            simp [Except.bind, Bind.bind, pure, Pure.pure, Except.pure, hpre, hauth] at hobj
            rw [← hobj]
            simp [hpre2, hauth2]
  obtain ⟨srv, hg⟩ := hgrants
  constructor
  · exact ⟨_, hg, rfl, rfl⟩
  · unfold create_offer at hok
    cases hv : createOfferVerify issuer server req with
    | error e => rw [hv] at hok; exact absurd hok (by simp [Except.bind, Bind.bind])
    | ok u =>
        rw [hv, hgt] at hok
        rw [hobj] at hok
        simp only [Except.bind, Bind.bind, pure, Pure.pure, Except.pure, hpre, hauth,
          Bool.true_or, Bool.or_true, if_true] at hok
        cases hitems : authorizeAll authorizeFn (req.subject_id.getD "")
            req.credential_configuration_ids with
        | error e => rw [hitems] at hok; simp [hpre2] at hok
        | ok items =>
            rw [hitems] at hok
            have hkey : stateKeyOf offer.grants = .ok authCode := by
              rw [hg]
              rfl
            rw [hkey] at hok
            cases hsend : req.send_type with
            | byVal =>
                rw [hsend] at hok
                simp [hpre2, hauth2] at hok
                obtain ⟨h1, h2⟩ := hok
                rw [← h2]
                simp [Stage.isOffered]
            | byRef =>
                rw [hsend] at hok
                simp [hpre2, hauth2] at hok
                obtain ⟨h1, h2⟩ := hok
                rw [← h2]
                simp [Stage.isOffered]

/-- Witness for C9: a concrete request carrying both grant types. -/
theorem C9_shared_code_witness :
    (∃ g, ({ credential_configuration_ids := ["cfg1"],
             grants := some
               { authorization_code := some { issuer_state := some "CODE",
                                              authorization_server := none },
                 pre_authorized_code := some
                   { pre_authorized_code := "CODE", tx_code := none,
                     authorization_server := none } } } : CredentialOffer).grants = some g ∧
      g.pre_authorized_code.map (fun p => p.pre_authorized_code) = some "CODE" ∧
      g.authorization_code.bind (fun a => a.issuer_state) = some "CODE") ∧
    (List.filter (fun p => p.2.stage.isOffered)
      [("CODE",
        ({ expires_at := 0 + authorizedLifetime, subject_id := some "alice",
           stage := Stage.offered
             { details := some
                 [{ authorization_detail :=
                      { type_ := "openid_credential",
                        credential := .configurationId "cfg1" },
                    credential_identifiers := ["id1"] }],
               tx_code := none } } : VciState))]).map Prod.fst = ["CODE"] :=
  C9_shared_code
    { credential_configurations_supported := ["cfg1"], authorization_servers := none }
    { grant_types_supported := none }
    (fun _ _ => .ok ["id1"]) "CODE" "123456" "tok" 0 "https://issuer.example"
    { credential_configuration_ids := ["cfg1"], subject_id := some "alice",
      grant_types := some [.preAuthorizedCode, .authorizationCode],
      tx_code_required := false, send_type := .byVal }
    [.preAuthorizedCode, .authorizationCode]
    { offer_type := .object
        { credential_configuration_ids := ["cfg1"],
          grants := some
            { authorization_code := some { issuer_state := some "CODE",
                                           authorization_server := none },
              pre_authorized_code := some
                { pre_authorized_code := "CODE", tx_code := none,
                  authorization_server := none } } },
      tx_code := none }
    [("CODE",
      { expires_at := 0 + authorizedLifetime, subject_id := some "alice",
        stage := Stage.offered
          { details := some
              [{ authorization_detail :=
                   { type_ := "openid_credential",
                     credential := .configurationId "cfg1" },
                 credential_identifiers := ["id1"] }],
            tx_code := none } })]
    { credential_configuration_ids := ["cfg1"],
      grants := some
        { authorization_code := some { issuer_state := some "CODE",
                                       authorization_server := none },
          pre_authorized_code := some
            { pre_authorized_code := "CODE", tx_code := none,
              authorization_server := none } } }
    rfl (by decide) (by decide) (by rfl) (by rfl)

theorem b64url_length (bytes : List Nat) :
    (b64url bytes).length = (b64urlChars bytes).length := rfl

theorem b64urlChars_length : ∀ l : List Nat, (b64urlChars l).length =
    4 * (l.length / 3) + (if l.length % 3 = 0 then 0 else l.length % 3 + 1)
  | [] => by simp [b64urlChars]
  | [a] => by simp [b64urlChars]
  | [a, b] => by simp [b64urlChars]
  | a :: b :: c :: rest => by
      have ih := b64urlChars_length rest
      simp only [b64urlChars, List.length_cons, ih]
      have h3 : (rest.length + 1 + 1 + 1) % 3 = rest.length % 3 := by omega
      by_cases h : rest.length % 3 = 0 <;> simp [h3, h] <;> omega

theorem packBits_replicate : ∀ n : Nat,
    packBits (List.replicate (8 * n) false) = List.replicate n 0
  | 0 => rfl
  | n + 1 => by
      have h8 : 8 * (n + 1) = 8 + 8 * n := by ring
      have hrep : List.replicate (8 + 8 * n) false =
          false :: false :: false :: false :: false :: false :: false :: false ::
            List.replicate (8 * n) false := by
        rw [List.replicate_add]
        rfl
      rw [h8, hrep]
      have ih := packBits_replicate n
      simp [packBits, ih, List.replicate_succ]


/-- C4.  The claim as stated is false: `bitstring` does not GZIP-compress
the raw 131,072-bit buffer.  It expands every bit into an ASCII `'0'`/`'1'`
character (one byte per bit, 131,072 bytes) and compresses that string's
bytes (src/src/status/bitstring.rs lines 88-92).  Formalised over an
arbitrary injective (lossless) compressor, the claim fails already for
the empty status log: the compressor inputs have lengths 131,072 and
16,384, so the resulting `encodedList` strings differ in length. -/
theorem C4_counterexample : ¬ C4Statement := by
  intro h
  have h0 := h id Function.injective_id { purpose := .revocation, size := 1 } []
  have e1 : bitstring id { purpose := .revocation, size := 1 } [] =
      .ok (b64url (List.replicate MAX_ENTRIES 48)) := by
    unfold bitstring bitstringBits applyLog
    simp only [Except.bind, Bind.bind, pure, Pure.pure, Except.pure, uncompressedChars,
      List.map_replicate]
    rfl
  have e2 : bitstringClaimed id { purpose := .revocation, size := 1 } [] =
      .ok (b64url (List.replicate 16384 0)) := by
    unfold bitstringClaimed bitstringBits applyLog
    simp only [Except.bind, Bind.bind, pure, Pure.pure, Except.pure]
    have hm : (MAX_ENTRIES : Nat) = 8 * 16384 := by norm_num [MAX_ENTRIES]
    rw [hm, packBits_replicate]
    rfl
  rw [e1, e2, Except.ok.injEq] at h0
  have hl := congrArg String.length h0
  rw [b64url_length, b64url_length, b64urlChars_length, b64urlChars_length,
    List.length_replicate, List.length_replicate] at hl
  norm_num [MAX_ENTRIES] at hl

theorem writeBits_eq : ∀ (v bits : List Bool) (pos : Nat),
    pos + v.length ≤ bits.length →
    writeBits bits pos v = .ok (bits.take pos ++ v ++ bits.drop (pos + v.length))
  | [], bits, pos, h => by
      simp [writeBits, List.take_append_drop]
  | b :: rest, bits, pos, h => by
      have hlt : pos < bits.length := by simp at h; omega
      have h2 : (pos + 1) + rest.length ≤ (bits.set pos b).length := by
        simp at h ⊢; omega
      have hlen : (bits.take pos).length = pos := by
        simp [List.length_take]; omega
      unfold writeBits
      rw [if_pos hlt, writeBits_eq rest (bits.set pos b) (pos + 1) h2]
      congr 1
      rw [List.set_eq_take_cons_drop b hlt]
      have e1 : pos + 1 = (bits.take pos).length + 1 := by omega
      have e2 : pos + 1 + rest.length = (bits.take pos).length + (1 + rest.length) := by
        omega
      rw [e2, List.drop_append, e1, List.take_append, hlen]
      have e3 : 1 + rest.length = rest.length + 1 := by omega
      rw [e3, List.drop_succ_cons, List.drop_drop]
      have e4 : pos + 1 + rest.length = pos + (b :: rest).length := by
        simp; omega
      rw [e4]
      simp

/-- C4 (amended).  `bitstring` produces encodedList =
base64url-without-padding of the GZIP compression of the ASCII
`'0'`/`'1'` expansion of the 131,072-bit buffer (one byte per bit, index
0 left-most); in that buffer each revocation/suspension entry occupies 1
bit at position `list_index * size` (set iff its value is non-zero), and
each message entry writes its value's full bit view LSB-first starting
at `list_index * size`. -/
theorem C4_amended :
    (∀ (gzip : List Nat → List Nat) (config : ListConfig) (issued : List StatusLogEntry),
      bitstring gzip config issued = (bitstringBits config issued).map
        (fun bits => b64url (gzip ((uncompressedChars bits).map Char.toNat)))) ∧
    (∀ (config : ListConfig) (idx : Nat) (v : List Bool),
      (config.purpose = .revocation ∨ config.purpose = .suspension) →
      idx * config.size < MAX_ENTRIES →
      bitstringBits config [{ status := [{ purpose := config.purpose,
                                           list_index := idx, value := v }] }] =
        .ok ((List.replicate MAX_ENTRIES false).set (idx * config.size) (v.any id))) ∧
    (∀ (config : ListConfig) (idx : Nat) (v : List Bool),
      config.purpose = .message →
      idx * config.size < MAX_ENTRIES →
      idx * config.size + v.length ≤ MAX_ENTRIES →
      bitstringBits config [{ status := [{ purpose := config.purpose,
                                           list_index := idx, value := v }] }] =
        .ok (List.replicate (idx * config.size) false ++ v ++
          List.replicate (MAX_ENTRIES - (idx * config.size + v.length)) false)) := by
  refine ⟨?_, ?_, ?_⟩
  · intro gzip config issued
    unfold bitstring
    cases hb : bitstringBits config issued with
    | error e => simp only [hb, Except.bind, Bind.bind, Except.map]
    | ok bits =>
        simp only [hb, Except.bind, Bind.bind, Except.map, pure, Pure.pure, Except.pure]
  · intro config idx v hp hlt
    unfold bitstringBits applyLog applyEntry applyStatus
    simp only [List.length_replicate, ne_eq, not_true_eq_false, if_false]
    rw [if_neg (by omega)]
    rcases hp with hp | hp <;> rw [hp] <;> rfl
  · intro config idx v hp hlt hle
    unfold bitstringBits applyLog applyEntry applyStatus
    simp only [List.length_replicate, ne_eq, not_true_eq_false, if_false]
    rw [if_neg (by omega)]
    rw [hp]
    have hw := writeBits_eq v (List.replicate MAX_ENTRIES false) (idx * config.size)
      (by simp only [List.length_replicate]; omega)
    simp only [hw, Except.bind, Bind.bind, pure, Pure.pure, Except.pure]
    rw [List.take_replicate, List.drop_replicate]
    rw [Nat.min_eq_left (Nat.le_of_lt hlt)]
    rfl

/-- Witness for C4 (amended): the placement conclusions instantiated at
concrete configurations and entries. -/
theorem C4_amended_witness :
    (bitstringBits { purpose := .revocation, size := 1 }
      [{ status := [{ purpose := .revocation, list_index := 5, value := [true] }] }] =
      .ok ((List.replicate MAX_ENTRIES false).set (5 * 1) ([true].any id))) ∧
    (bitstringBits { purpose := .message, size := 2 }
      [{ status := [{ purpose := .message, list_index := 3,
                      value := [true, false, true] }] }] =
      .ok (List.replicate (3 * 2) false ++ [true, false, true] ++
        List.replicate (MAX_ENTRIES - (3 * 2 + 3)) false)) :=
  ⟨C4_amended.2.1 { purpose := .revocation, size := 1 } 5 [true]
      (Or.inl rfl) (by norm_num [MAX_ENTRIES]),
   C4_amended.2.2 { purpose := .message, size := 2 } 3 [true, false, true]
      rfl (by norm_num [MAX_ENTRIES]) (by norm_num [MAX_ENTRIES])⟩
